import Mathlib

/-!
Shallow embedding of the scanner-map worker process (`transcribe.py`) and its
tone-detection helper (`tone_detect.py`): the persistent stdin/stdout protocol
loop, input resolution, path validation, the empty-result retry policy, the
error classifier, heartbeat bookkeeping, and the tone-detection result
normalization.  External collaborators (the Whisper backend, ffprobe, base64
decoding, pydub, the icad tone-detection library) are modelled as fields of an
environment record so that the orchestration logic itself is a pure, executable
function of the environment and the parsed command.
-/

namespace ScannerMap

/-- Occurrence of `sub` as a contiguous sublist of `s`, modelling Python's
`sub in s` on strings (over the underlying character lists). -/
def charsContain (s sub : List Char) : Bool :=
  match s with
  | [] => sub.isEmpty
  | _ :: t => sub.isPrefixOf s || charsContain t sub

/-- Python's `sub in s` substring test on strings. -/
def strContains (s sub : String) : Bool :=
  charsContain s.data sub.data

/-- One call object reported by the icad tone-detection library.  Python code
probes these objects with `hasattr`, so every attribute is optional here:
two-tone calls carry `tone_a`/`tone_b`, long/pulsed calls carry `frequency`. -/
structure ToneCall where
  tone_a : Option ℚ
  tone_b : Option ℚ
  duration_a : Option ℚ
  duration_b : Option ℚ
  frequency : Option ℚ
deriving DecidableEq

/-- The value stored under the `detection_result` key of a detection-result
dict: either a library object exposing a `calls` attribute (Python API path)
or the CLI path's plain dict, which has no `calls` attribute. -/
inductive DetectionData where
  | callsObj (calls : List ToneCall)
  | cliDict
deriving DecidableEq

/-- The dict returned by `ToneDetector.detect_tones_in_file`. -/
structure DetectionResult where
  has_two_tone : Bool
  detection_result : Option DetectionData
  detected_type : Option String
  file_path : String
  error : Option String
deriving DecidableEq

/-- One entry of the list returned by `ToneDetector.get_detected_tones`
(`tone_detect.py` lines 571-578). -/
structure ToneEntry where
  tone_a : ℚ
  tone_b : ℚ
  duration_a : ℚ
  duration_b : ℚ
deriving DecidableEq

/-- `ToneDetector.get_detected_tones` (`tone_detect.py` lines 552-580): returns
`[]` unless `has_two_tone` is set; otherwise walks `detection_result.calls`
(when that attribute exists) and keeps exactly the calls carrying both
`tone_a` and `tone_b`, defaulting the durations to `0.0`. -/
def get_detected_tones (detection_result : DetectionResult) : List ToneEntry :=
  if !detection_result.has_two_tone then []
  else
    match detection_result.detection_result with
    | none => []
    | some .cliDict => []
    | some (.callsObj calls) =>
      calls.filterMap fun call =>
        match call.tone_a, call.tone_b with
        | some a, some b => some ⟨a, b, call.duration_a.getD 0, call.duration_b.getD 0⟩
        | _, _ => none

/-- Audio input handed to the backend: a filesystem path or the decoded,
resampled sample buffer obtained from an inline base64 payload. -/
inductive AudioInput where
  | path (p : String)
  | buffer (samples : List ℤ)
deriving DecidableEq

/-- The `transcription_params` dict built in `transcribe.py` lines 369-381. -/
structure TranscriptionParams where
  audio_input : AudioInput
  language : String
  beam_size : ℕ
  vad_filter : Bool
  min_silence_duration_ms : ℕ
  word_timestamps : Bool
  condition_on_previous_text : Bool
  prompt : Option String
deriving DecidableEq

/-- A response line written to stdout: the JSON object keys that the various
`print(json.dumps(...))` sites can populate, each optional. -/
structure Response where
  id : String
  transcription : Option String := none
  has_two_tone : Option Bool := none
  detected_tones : Option (List ToneEntry) := none
  file_path : Option String := none
  error : Option String := none
deriving DecidableEq

/-- Outcome of the `subprocess.run(['ffprobe', ...])` invocation
(`transcribe.py` lines 339-359): a completed run with a return code, a
`TimeoutExpired`, or any other exception (for example the tool is missing). -/
inductive ProbeOutcome where
  | completed (returncode : ℤ)
  | timeoutExpired
  | invocationError (msg : String)
deriving DecidableEq

/-- The external collaborators of the worker, plus the startup configuration
that is read once: the optional transcription prompt, the filesystem
(`os.path.isfile`/`os.path.getsize` collapsed into a size lookup), ffprobe,
base64 decoding, the pydub decode chain, tone-detector availability, the tone
detector, and the Whisper backend returning segment texts or raising. -/
structure Env where
  prompt : Option String
  fileSize : String → Option ℕ
  ffprobe : String → ProbeOutcome
  b64decode : String → Option (List ℕ)
  loadBuffer : List ℕ → Except String (List ℤ)
  toneAvailable : Bool
  detect_tones_in_file : String → Except String DetectionResult
  transcribe : TranscriptionParams → Except String (List String)

/-- A parsed job line: the keys of the JSON object that the main loop reads
(`command.get('id')`, `command.get('command')`, `'path' in command`,
`'audio_data_base64' in command`). -/
structure Command where
  id : Option String
  command : Option String
  path : Option String
  audio_data_base64 : Option String
deriving DecidableEq

/-- Renders an optional string the way a Python f-string renders
`command.get('command')`: `None` for a missing key. -/
def optRepr : Option String → String
  | none => "None"
  | some s => s

/-- The `transcription_params` dict as built in `transcribe.py` lines 369-381:
language en, beam size 3, VAD filtering on with a 750 ms minimum-silence
threshold, word timestamps off, no conditioning on previous text, and the
configured prompt when present. -/
def mkTranscriptionParams (prompt : Option String) (audio_input : AudioInput) :
    TranscriptionParams :=
  { audio_input := audio_input
    language := "en"
    beam_size := 3
    vad_filter := true
    min_silence_duration_ms := 750
    word_timestamps := false
    condition_on_previous_text := false
    prompt := prompt }

/-- Python's `str.strip()`: drop leading and trailing whitespace. -/
def pyStrip (s : String) : String :=
  ⟨((s.data.dropWhile Char.isWhitespace).reverse.dropWhile Char.isWhitespace).reverse⟩

/-- Python's `str.lower()`. -/
def pyLower (s : String) : String :=
  ⟨s.data.map Char.toLower⟩

/-- `" ".join(segments_text).strip()` (`transcribe.py` lines 388 and 400). -/
def joinStrip (segments_text : List String) : String :=
  pyStrip (String.intercalate " " segments_text)

/-- The error classifier of the transcription `except` block
(`transcribe.py` lines 412-420). -/
def classifyTranscriptionError (request_id error_str : String) : String :=
  if strContains error_str "[Errno 1094995529]" ||
      strContains error_str "Invalid data found" ||
      strContains (pyLower error_str) "corrupt" then
    "Corrupt audio data for ID " ++ request_id ++ "."
  else if strContains (pyLower error_str) "out of memory" ||
      strContains (pyLower error_str) "memory" then
    "Out of memory during transcription for ID " ++ request_id ++ "."
  else
    "Error during transcription for ID " ++ request_id ++ ": " ++ error_str

/-- The transcription stage (`transcribe.py` lines 362-423): a first backend
pass with the prepared parameters, one retry with `vad_filter` off when the
joined, stripped text is empty, classification of backend exceptions, and the
success response.  Also returns the list of backend calls issued, in order. -/
def runTranscription (env : Env) (request_id : String) (audio_input : AudioInput) :
    Response × List TranscriptionParams :=
  let params := mkTranscriptionParams env.prompt audio_input
  match env.transcribe params with
  | .error e =>
    ({ id := request_id, error := some (classifyTranscriptionError request_id e) }, [params])
  | .ok segments_text =>
    let transcription := joinStrip segments_text
    if transcription = "" then
      let retry_params := { params with vad_filter := false }
      match env.transcribe retry_params with
      | .error e =>
        ({ id := request_id, error := some (classifyTranscriptionError request_id e) },
          [params, retry_params])
      | .ok segments2 =>
        ({ id := request_id, transcription := some (joinStrip segments2) },
          [params, retry_params])
    else
      ({ id := request_id, transcription := some transcription }, [params])

/-- The path-input integrity checks (`transcribe.py` lines 315-359): defensive
existence re-check, the 1000-byte lower and 100 MiB upper size bounds, and the
ffprobe structural probe.  Returns the error response when the job is
rejected, `none` when transcription should proceed; an ffprobe invocation
failure that is neither a non-zero exit nor a timeout is non-fatal. -/
def validatePathInput (env : Env) (request_id p : String) : Option Response :=
  match env.fileSize p with
  | none => some { id := request_id, error := some ("Audio file not found: " ++ p) }
  | some file_size =>
    if file_size < 1000 then
      some { id := request_id,
             error := some ("Audio file too small: " ++ toString file_size ++ " bytes") }
    else if file_size > 100 * 1024 * 1024 then
      some { id := request_id,
             error := some ("Audio file too large: " ++ toString file_size ++ " bytes") }
    else
      match env.ffprobe p with
      | .completed rc =>
        if rc ≠ 0 then
          some { id := request_id,
                 error := some ("Corrupt audio file (ffprobe check): " ++ p) }
        else none
      | .timeoutExpired =>
        some { id := request_id, error := some ("File validation timeout: " ++ p) }
      | .invocationError _ => none

/-- Result of the command-dispatch section (`transcribe.py` lines 234-303):
either an `error_detail` string, a completed tone-detection response, or an
audio input to hand to the transcription stage. -/
inductive DispatchOutcome where
  | errorDetail (msg : String)
  | toneResponse (r : Response)
  | transcriptionInput (audio_input : AudioInput)
deriving DecidableEq

/-- The command-dispatch section (`transcribe.py` lines 234-303): input
resolution for `transcribe` (path takes the `if` branch, base64 the `elif`),
the `detect_tones` handler that builds and emits its response inline, and the
invalid-command fallback. -/
def dispatchCommand (env : Env) (request_id : String) (command : Command) :
    DispatchOutcome :=
  if command.command = some "transcribe" then
    match command.path with
    | some audio_file_path =>
      match env.fileSize audio_file_path with
      | none => .errorDetail ("Audio file does not exist: " ++ audio_file_path)
      | some _ => .transcriptionInput (.path audio_file_path)
    | none =>
      match command.audio_data_base64 with
      | some base64_data =>
        match env.b64decode base64_data with
        | none => .errorDetail "Invalid Base64 data received."
        | some audio_bytes =>
          if audio_bytes = [] then .errorDetail "Decoded audio data is empty."
          else
            match env.loadBuffer audio_bytes with
            | .error e => .errorDetail ("Error processing audio buffer: " ++ e)
            | .ok samples => .transcriptionInput (.buffer samples)
      | none => .errorDetail "Invalid command format: missing 'path' or 'audio_data_base64'."
  else if command.command = some "detect_tones" then
    if !env.toneAvailable then
      .errorDetail "Tone detection is not available. Please install icad-tone-detection."
    else
      match command.path with
      | some audio_file_path =>
        match env.fileSize audio_file_path with
        | none => .errorDetail ("Audio file does not exist: " ++ audio_file_path)
        | some _ =>
          match env.detect_tones_in_file audio_file_path with
          | .error e => .errorDetail ("Error during tone detection: " ++ e)
          | .ok detection_result =>
            .toneResponse
              { id := request_id
                has_two_tone := some detection_result.has_two_tone
                detected_tones := some (get_detected_tones detection_result)
                file_path := some audio_file_path
                error := detection_result.error }
      | none => .errorDetail "Tone detection requires 'path' parameter."
  else
    .errorDetail ("Invalid command: " ++ optRepr command.command)

/-- One parsed job through the body of the main loop (`transcribe.py` lines
224-433): drop the job when `id` is missing or falsy, dispatch, emit the
`error_detail` response or the tone response, or run path validation followed
by the transcription stage.  Returns the emitted response lines and the list
of backend transcribe calls issued. -/
def processCommand (env : Env) (command : Command) :
    List Response × List TranscriptionParams :=
  match command.id with
  | none => ([], [])
  | some request_id =>
    if request_id = "" then ([], [])
    else
      match dispatchCommand env request_id command with
      | .errorDetail msg => ([{ id := request_id, error := some msg }], [])
      | .toneResponse r => ([r], [])
      | .transcriptionInput audio_input =>
        match audio_input with
        | .path p =>
          match validatePathInput env request_id p with
          | some r => ([r], [])
          | none =>
            let out := runTranscription env request_id (.path p)
            ([out.1], out.2)
        | .buffer samples =>
          let out := runTranscription env request_id (.buffer samples)
          ([out.1], out.2)

/-- One line read from stdin, after `strip()` and `json.loads`: empty; raising
a `JSONDecodeError`; valid JSON that is not an object (an int, string, list,
null, ...), on which `command.get('id')` raises an `AttributeError` whose text
is the payload; or a parsed job object. -/
inductive LineInput where
  | emptyLine
  | malformed
  | nonObject (msg : String)
  | parsed (command : Command)
deriving DecidableEq

/-- The per-line responses of the main loop, given the value left in the
`request_id` local by earlier iterations (`none` when it was never assigned or
was assigned a missing id).  Empty lines and `JSONDecodeError` lines produce
no response (`continue`, `transcribe.py` lines 221-222 and 435-437).  A
valid-JSON non-object line raises before `request_id` is reassigned; the
catch-all (`transcribe.py` lines 438-449) then emits an `Unexpected server
error` response carrying the stale `request_id` when one with a truthy value
exists, and only logs otherwise.  Parsed jobs run through the loop body. -/
def handleLine (env : Env) (request_id : Option String) (line : LineInput) :
    List Response :=
  match line with
  | .emptyLine => []
  | .malformed => []
  | .nonObject msg =>
    match request_id with
    | some rid =>
      if rid = "" then []
      else [{ id := rid, error := some ("Unexpected server error: " ++ msg) }]
    | none => []
  | .parsed command => (processCommand env command).1

/-- The value of the `request_id` local after an iteration: only the
assignment `request_id = command.get('id')` (`transcribe.py` line 225), which
is reached exactly when the line parsed as an object, changes it; on every
other line the previous iteration's value survives. -/
def nextRequestId (request_id : Option String) : LineInput → Option String
  | .parsed command => command.id
  | _ => request_id

/-- The whole-run view of line handling from a given `request_id` state:
responses of consecutive lines are concatenated in order, the stale
`request_id` is threaded from one iteration to the next, and the loop survives
every line. -/
def runLines (env : Env) (request_id : Option String) : List LineInput → List Response
  | [] => []
  | line :: rest =>
    handleLine env request_id line ++
      runLines env (nextRequestId request_id line) rest

/-- The loop-carried state: `last_heartbeat` (`transcribe.py` line 207),
updated only when a heartbeat is emitted.  Time is modelled in whole seconds. -/
structure LoopState where
  last_heartbeat : ℕ
deriving DecidableEq

/-- One stdout line of the running loop: a heartbeat object or a response. -/
inductive Output where
  | heartbeat (timestamp : ℕ)
  | response (r : Response)
deriving DecidableEq

/-- One iteration of the main loop (`transcribe.py` lines 210-222): at the top
of the iteration, if more than 300 seconds have passed since `last_heartbeat`,
a heartbeat line is printed and `last_heartbeat` is set to the current time;
then the next line is read and handled (with the `request_id` local holding
the given stale value, `none` at process start).  Nothing but the heartbeat
emission updates `last_heartbeat`. -/
def loopIteration (env : Env) (current_time : ℕ) (st : LoopState) (line : LineInput)
    (request_id : Option String := none) : LoopState × List Output :=
  if current_time - st.last_heartbeat > 300 then
    ({ last_heartbeat := current_time },
      Output.heartbeat current_time :: (handleLine env request_id line).map Output.response)
  else
    (st, (handleLine env request_id line).map Output.response)

/-- A run of the main loop over a sequence of (read time, line) events,
starting from a given loop state and `request_id` value (`none` at process
start), collecting all stdout lines in order and threading the stale
`request_id` between iterations. -/
def runLoop (env : Env) (st : LoopState) (events : List (ℕ × LineInput))
    (request_id : Option String := none) : List Output :=
  match events with
  | [] => []
  | (t, line) :: rest =>
    let step := loopIteration env t st line request_id
    step.2 ++ runLoop env step.1 rest (nextRequestId request_id line)

/-- A tone-category result object of the icad library (Python API path):
an object carrying a list of calls. -/
structure ApiToneData where
  calls : List ToneCall
deriving DecidableEq

/-- The object returned by `icad_tone_detection.tone_detect` as probed by the
Python API fallback: each category attribute is either absent/None (`none`)
or a result object. -/
structure ApiResult where
  two_tone_result : Option ApiToneData
  long_result : Option ApiToneData
  pulsed_result : Option ApiToneData
deriving DecidableEq

/-- The category-selection logic of the Python API fallback in
`ToneDetector.detect_tones_in_file` (`tone_detect.py` lines 322-381): check
`two_tone_result` first, then — only if nothing was found — `long_result`,
then `pulsed_result`; a category fires when its object is present and its
`calls` list is non-empty.  Returns `(has_tone, tone_data, detected_type)`. -/
def apiSelect (result : ApiResult) : Bool × Option ApiToneData × Option String :=
  let init : Bool × Option ApiToneData × Option String := (false, none, none)
  let s1 :=
    match result.two_tone_result with
    | some d => if d.calls ≠ [] then (true, some d, some "two-tone") else init
    | none => init
  let s2 :=
    if !s1.1 then
      match result.long_result with
      | some d => if d.calls ≠ [] then (true, some d, some "long") else s1
      | none => s1
    else s1
  let s3 :=
    if !s2.1 then
      match result.pulsed_result with
      | some d => if d.calls ≠ [] then (true, some d, some "pulsed") else s2
      | none => s2
    else s2
  s3

/-- The detection-result dict built by the Python API fallback
(`tone_detect.py` lines 386-392) from the selected category. -/
def apiDetectionResult (result : ApiResult) (file_path : String) : DetectionResult :=
  let sel := apiSelect result
  { has_two_tone := sel.1
    detection_result := sel.2.1.map (fun d => .callsObj d.calls)
    detected_type := sel.2.2
    file_path := file_path
    error := none }

/-- The primary-type computation of the CLI path when the CLI output parses as
JSON (`tone_detect.py` lines 496-513): collect the labels of the non-empty
categories in order two-tone, pulsed, long; a single label is used as-is,
several labels are joined with `+`. -/
def cliJsonDetectedType (has_two_tone has_pulsed has_long : Bool) : Option String :=
  let detected_types :=
    (if has_two_tone then ["two-tone"] else []) ++
    (if has_pulsed then ["pulsed"] else []) ++
    (if has_long then ["long"] else [])
  match detected_types with
  | [] => none
  | [t] => some t
  | ts => some (String.intercalate "+" ts)

/-- The primary-type computation of the CLI path's text-parsing fallback
(`tone_detect.py` lines 516-528): first match in order two-tone, pulsed,
long. -/
def cliTextDetectedType (has_two_tone has_pulsed has_long : Bool) : Option String :=
  if has_two_tone then some "two-tone"
  else if has_pulsed then some "pulsed"
  else if has_long then some "long"
  else none

/-- Modelled from the spec claim's words: the primary detected type is the
first non-empty category in precedence order two-tone, then pulsed, then
long-tone. -/
def claimPrecedence (has_two_tone has_pulsed has_long : Bool) : Option String :=
  if has_two_tone then some "two-tone"
  else if has_pulsed then some "pulsed"
  else if has_long then some "long"
  else none

/-- The precedence order the Python API fallback actually implements:
two-tone first, then long-tone, then pulsed. -/
def apiOrderPrecedence (has_two_tone has_long has_pulsed : Bool) : Option String :=
  if has_two_tone then some "two-tone"
  else if has_long then some "long"
  else if has_pulsed then some "pulsed"
  else none

/-- Whether a category attribute of an `ApiResult` holds a non-empty event
list. -/
def catNonempty : Option ApiToneData → Bool
  | some d => !d.calls.isEmpty
  | none => false

/-- A concrete environment for witness instantiations: no file exists, every
collaborator fails or returns trivially. -/
def bareEnv : Env :=
  { prompt := none
    fileSize := fun _ => none
    ffprobe := fun _ => .invocationError "ffprobe missing"
    b64decode := fun _ => none
    loadBuffer := fun _ => .error "decode failed"
    toneAvailable := false
    detect_tones_in_file := fun _ => .error "unavailable"
    transcribe := fun _ => .ok [] }

/-- A concrete environment in which every path names a readable 2000-byte file
that passes the ffprobe check, and the backend returns no segments. -/
def sizedEnv : Env :=
  { prompt := some "Fire dispatch scanner audio."
    fileSize := fun _ => some 2000
    ffprobe := fun _ => .completed 0
    b64decode := fun _ => some [1]
    loadBuffer := fun _ => .ok [0]
    toneAvailable := true
    detect_tones_in_file := fun p =>
      .ok { has_two_tone := false, detection_result := none, detected_type := none,
            file_path := p, error := none }
    transcribe := fun _ => .ok [] }

/-- The parameters of the first backend pass for a path job. -/
def firstPassParams (env : Env) (p : String) : TranscriptionParams :=
  mkTranscriptionParams env.prompt (.path p)
/-- The parameters of the second backend pass: the first pass's parameters
with only `vad_filter` turned off (`retry_params`, `transcribe.py` 395-396). -/
def retryPassParams (env : Env) (p : String) : TranscriptionParams :=
  { firstPassParams env p with vad_filter := false }
/-- C4 counterexample environment: the tone detector reports a failure of both
its CLI and API strategies, a dict that carries an `error` key alongside
`has_two_tone` (`tone_detect.py` lines 404-411). -/
def toneErrEnv : Env :=
  { sizedEnv with
    detect_tones_in_file := fun p =>
      .ok { has_two_tone := false, detection_result := none, detected_type := none,
            file_path := p,
            error := some "Both CLI and API failed. CLI: timed out, API: boom" } }
/-- The error response a `transcribe` job with neither input field gets. -/
def invalidFormatResponse : Response :=
  { id := "w4",
    error := some "Invalid command format: missing 'path' or 'audio_data_base64'." }
/-- The `transcribe` job with neither input field. -/
def noInputJob : Command :=
  { id := some "w4", command := some "transcribe", path := none,
    audio_data_base64 := none }
/-- A call object of a pulsed or long-tone category: it carries a frequency
but no `tone_a`/`tone_b` attributes. -/
def pulsedCall : ToneCall :=
  { tone_a := none, tone_b := none, duration_a := none, duration_b := none,
    frequency := some 1000 }
/-- `optPrefix t s` holds when `t` and `s` are both absent, or both present
with `t` a prefix of `s`. -/
def optPrefix : Option String → Option String → Bool
  | none, none => true
  | some t, some s => t.data.isPrefixOf s.data
  | _, _ => false
/-- A concrete path-transcription job used in the heartbeat counterexample. -/
def hbJob (i : String) : Command :=
  { id := some i, command := some "transcribe", path := some "/x.wav",
    audio_data_base64 := none }

theorem dispatchCommand_toneResponse_id (env : Env) (request_id : String)
    (command : Command) (r : Response)
    (h : dispatchCommand env request_id command = .toneResponse r) :
    r.id = request_id := by
  unfold dispatchCommand at h
  split at h
  · split at h
    · split at h <;> simp_all
    · split at h
      · split at h
        · simp_all
        · split at h
          · simp_all
          · split at h <;> simp_all
      · simp_all
  · split at h
    · split at h
      · simp_all
      · split at h
        · split at h
          · simp_all
          · split at h
            · simp_all
            · cases h; rfl
        · simp_all
    · simp_all

theorem validatePathInput_id (env : Env) (request_id p : String) (r : Response)
    (h : validatePathInput env request_id p = some r) :
    r.id = request_id := by
  unfold validatePathInput at h
  split at h
  · cases h; rfl
  · split at h
    · cases h; rfl
    · split at h
      · cases h; rfl
      · split at h
        · split at h
          · cases h; rfl
          · simp_all
        · cases h; rfl
        · simp_all

theorem runTranscription_id (env : Env) (request_id : String)
    (audio_input : AudioInput) :
    (runTranscription env request_id audio_input).1.id = request_id := by
  unfold runTranscription
  dsimp only
  split
  · rfl
  · split
    · split <;> rfl
    · rfl

theorem runTranscription_calls_ne_nil (env : Env) (request_id : String)
    (audio_input : AudioInput) :
    (runTranscription env request_id audio_input).2 ≠ [] := by
  unfold runTranscription
  dsimp only
  split
  · simp
  · split
    · split <;> simp
    · simp

/-- C1: for every input line that parses as a job object with a non-empty id,
the loop body emits exactly one response line, and that response's id equals
the job's id, whether the job succeeds or fails. -/
theorem response_id_matches (env : Env) (command : Command) (request_id : String)
    (hid : command.id = some request_id) (hne : request_id ≠ "") :
    (processCommand env command).1.length = 1 ∧
    ∀ r ∈ (processCommand env command).1, r.id = request_id := by
  unfold processCommand
  rw [hid]
  simp only [if_neg hne]
  cases hdc : dispatchCommand env request_id command with
  | errorDetail msg => simp [hdc]
  | toneResponse r =>
    simp [hdc, dispatchCommand_toneResponse_id env request_id command r hdc]
  | transcriptionInput audio_input =>
    cases audio_input with
    | path p =>
      cases hv : validatePathInput env request_id p with
      | none => simp [hdc, hv, runTranscription_id]
      | some r =>
        simp [hdc, hv, validatePathInput_id env request_id p r hv]
    | buffer samples => simp [hdc, runTranscription_id]

/-- Witness for C1 at a concrete job and environment. -/
theorem response_id_matches_witness :
    (processCommand bareEnv
        { id := some "job-1", command := some "transcribe",
          path := some "/tmp/a.wav", audio_data_base64 := none }).1.length = 1 ∧
    ∀ r ∈ (processCommand bareEnv
        { id := some "job-1", command := some "transcribe",
          path := some "/tmp/a.wav", audio_data_base64 := none }).1,
      r.id = "job-1" :=
  response_id_matches bareEnv
    { id := some "job-1", command := some "transcribe",
      path := some "/tmp/a.wav", audio_data_base64 := none }
    "job-1" rfl (by decide)

theorem dispatchCommand_path_job (env : Env) (request_id p : String) (sz : ℕ)
    (command : Command)
    (hcc : command.command = some "transcribe") (hp : command.path = some p)
    (hsize : env.fileSize p = some sz) :
    dispatchCommand env request_id command = .transcriptionInput (.path p) := by
  unfold dispatchCommand
  rw [hcc, hp]
  simp [hsize]

theorem validatePathInput_clean (env : Env) (request_id p : String) (sz : ℕ)
    (hsize : env.fileSize p = some sz) (hmin : ¬ sz < 1000)
    (hmax : ¬ sz > 100 * 1024 * 1024) (hprobe : env.ffprobe p = .completed 0) :
    validatePathInput env request_id p = none := by
  unfold validatePathInput
  rw [hsize]
  simp [hmin, hmax, hprobe]

/-- C2: a transcription job whose first pass (VAD on) yields empty post-trim
text issues exactly one second backend pass with `vad_filter` off and every
other parameter (prompt included) identical; if the second pass is also empty,
the emitted response is a success with the empty transcription, not an
error. -/
theorem empty_retry_policy (env : Env) (request_id p : String) (sz : ℕ)
    (segments_text : List String)
    (hne : request_id ≠ "")
    (hsize : env.fileSize p = some sz) (hmin : ¬ sz < 1000)
    (hmax : ¬ sz > 100 * 1024 * 1024)
    (hprobe : env.ffprobe p = .completed 0)
    (h1 : env.transcribe (firstPassParams env p) = .ok segments_text)
    (hempty : joinStrip segments_text = "") :
    (firstPassParams env p).vad_filter = true ∧
    (processCommand env
        { id := some request_id, command := some "transcribe",
          path := some p, audio_data_base64 := none }).2 =
      [firstPassParams env p, retryPassParams env p] ∧
    (retryPassParams env p).vad_filter = false ∧
    (retryPassParams env p).audio_input = (firstPassParams env p).audio_input ∧
    (retryPassParams env p).language = (firstPassParams env p).language ∧
    (retryPassParams env p).beam_size = (firstPassParams env p).beam_size ∧
    (retryPassParams env p).min_silence_duration_ms =
      (firstPassParams env p).min_silence_duration_ms ∧
    (retryPassParams env p).word_timestamps = (firstPassParams env p).word_timestamps ∧
    (retryPassParams env p).condition_on_previous_text =
      (firstPassParams env p).condition_on_previous_text ∧
    (retryPassParams env p).prompt = (firstPassParams env p).prompt ∧
    (∀ segments2, env.transcribe (retryPassParams env p) = .ok segments2 →
      joinStrip segments2 = "" →
      (processCommand env
          { id := some request_id, command := some "transcribe",
            path := some p, audio_data_base64 := none }).1 =
        [{ id := request_id, transcription := some "" }]) := by
  have hd := dispatchCommand_path_job env request_id p sz
    { id := some request_id, command := some "transcribe",
      path := some p, audio_data_base64 := none } rfl rfl hsize
  have hv := validatePathInput_clean env request_id p sz hsize hmin hmax hprobe
  refine ⟨rfl, ?_, rfl, rfl, rfl, rfl, rfl, rfl, rfl, rfl, ?_⟩
  · unfold processCommand
    simp only [if_neg hne, hd, hv]
    unfold runTranscription
    dsimp only
    rw [show mkTranscriptionParams env.prompt (.path p) = firstPassParams env p from rfl, h1]
    simp only [hempty, if_pos]
    split <;> rfl
  · intro segments2 h2 hempty2
    unfold processCommand
    simp only [if_neg hne, hd, hv]
    unfold runTranscription
    dsimp only
    rw [show mkTranscriptionParams env.prompt (.path p) = firstPassParams env p from rfl, h1]
    simp only [hempty, if_pos]
    rw [show ({ firstPassParams env p with vad_filter := false } : TranscriptionParams) =
      retryPassParams env p from rfl, h2]
    simp [hempty2]

/-- Witness for C2 at a concrete job and environment. -/
theorem empty_retry_policy_witness :
    (processCommand sizedEnv
        { id := some "job-2", command := some "transcribe",
          path := some "/tmp/b.wav", audio_data_base64 := none }).2 =
      [firstPassParams sizedEnv "/tmp/b.wav", retryPassParams sizedEnv "/tmp/b.wav"] :=
  (empty_retry_policy sizedEnv "job-2" "/tmp/b.wav" 2000 [] (by decide) rfl
    (by decide) (by decide) rfl rfl rfl).2.1

/-- C3 counterexample: a line that is valid JSON but not an object — here the
`AttributeError` text a bare integer produces — emitted a response after an
earlier job left a truthy `request_id` behind: the run over a job with id `a`
followed by such a line produces two responses, the second carrying the stale
id `a` and an `Unexpected server error` message (`transcribe.py` lines
438-449), so a line that fails to parse as a job record is not always
dropped without a response. -/
theorem stale_id_response_counterexample :
    handleLine bareEnv (some "a")
        (.nonObject "'int' object has no attribute 'get'") =
      [{ id := "a",
         error := some "Unexpected server error: 'int' object has no attribute 'get'" }] ∧
    runLines bareEnv none
        [.parsed (hbJob "a"), .nonObject "'int' object has no attribute 'get'"] =
      [{ id := "a", error := some "Audio file does not exist: /x.wav" },
       { id := "a",
         error := some "Unexpected server error: 'int' object has no attribute 'get'" }] := by
  decide

/-- C3 amended: a line raising a JSON decode error, and a parsed job object
without an id (or with a falsy empty id), produce no response; but a line
that parses as JSON without being an object reaches the loop's catch-all,
which emits an `Unexpected server error` response carrying the previous
iteration's `request_id` whenever that is truthy, and drops the line silently
only when no truthy stale id exists.  In every case the loop stays alive: the
remaining lines are processed normally, with the stale id updated only by
parsed objects. -/
theorem unparsable_line_handling (env : Env) (request_id : Option String)
    (rest : List LineInput) :
    (handleLine env request_id .malformed = [] ∧
      runLines env request_id (.malformed :: rest) = runLines env request_id rest) ∧
    (∀ command : Command, command.id = none ∨ command.id = some "" →
      handleLine env request_id (.parsed command) = [] ∧
      runLines env request_id (.parsed command :: rest) =
        runLines env command.id rest) ∧
    (∀ msg, handleLine env none (.nonObject msg) = [] ∧
      handleLine env (some "") (.nonObject msg) = [] ∧
      ∀ rid, rid ≠ "" →
        handleLine env (some rid) (.nonObject msg) =
          [{ id := rid, error := some ("Unexpected server error: " ++ msg) }]) ∧
    (∀ line, runLines env request_id (line :: rest) =
      handleLine env request_id line ++
        runLines env (nextRequestId request_id line) rest) := by
  refine ⟨⟨rfl, ?_⟩, ?_, ?_, fun line => rfl⟩
  · rw [runLines]
    rfl
  · intro command hid
    have hl : handleLine env request_id (.parsed command) = [] := by
      show (processCommand env command).1 = []
      unfold processCommand
      rcases hid with h1 | h1 <;> simp [h1]
    refine ⟨hl, ?_⟩
    rw [runLines, hl, List.nil_append]
    rfl
  · intro msg
    refine ⟨rfl, rfl, fun rid hrid => ?_⟩
    simp [handleLine, hrid]

/-- Witness for the amended C3: a parsed object without an id is dropped and
the run continues. -/
theorem unparsable_line_handling_witness :
    handleLine bareEnv (some "a")
        (.parsed { id := none, command := none, path := none,
                   audio_data_base64 := none }) = [] ∧
    runLines bareEnv (some "a")
        (.parsed { id := none, command := none, path := none,
                   audio_data_base64 := none } :: [.emptyLine]) =
      runLines bareEnv none [.emptyLine] :=
  (unparsable_line_handling bareEnv (some "a") [.emptyLine]).2.1
    { id := none, command := none, path := none, audio_data_base64 := none }
    (Or.inl rfl)

theorem string_append_left_ne (a b t : String)
    (hne : a.data ≠ b.data) (hlen : a.data.length = b.data.length) :
    a ++ t ≠ b ++ t := by
  intro h
  apply hne
  have hd : a.data ++ t.data = b.data ++ t.data := by
    have := congrArg String.data h
    simpa [String.data_append] using this
  exact (List.append_inj hd hlen).1

/-- C7: a path-input transcription job whose file size is below 1000 bytes or
above 100 MiB gets an error response, the two cases carry distinct messages,
and the backend transcribe call is never issued (an empty call trace). -/
theorem size_bounds_reject (env : Env) (request_id p : String) (sz : ℕ)
    (hne : request_id ≠ "") (hsize : env.fileSize p = some sz) :
    (sz < 1000 →
      processCommand env
          { id := some request_id, command := some "transcribe",
            path := some p, audio_data_base64 := none } =
        ([{ id := request_id,
            error := some ("Audio file too small: " ++ toString sz ++ " bytes") }], [])) ∧
    (sz > 100 * 1024 * 1024 →
      processCommand env
          { id := some request_id, command := some "transcribe",
            path := some p, audio_data_base64 := none } =
        ([{ id := request_id,
            error := some ("Audio file too large: " ++ toString sz ++ " bytes") }], [])) ∧
    ("Audio file too small: " ++ toString sz ++ " bytes" : String) ≠
      "Audio file too large: " ++ toString sz ++ " bytes" := by
  have hd := dispatchCommand_path_job env request_id p sz
    { id := some request_id, command := some "transcribe",
      path := some p, audio_data_base64 := none } rfl rfl hsize
  refine ⟨?_, ?_, ?_⟩
  · intro h
    have hv : validatePathInput env request_id p =
        some { id := request_id,
               error := some ("Audio file too small: " ++ toString sz ++ " bytes") } := by
      unfold validatePathInput
      rw [hsize]
      simp [h]
    unfold processCommand
    simp [if_neg hne, hd, hv]
  · intro h
    have hv : validatePathInput env request_id p =
        some { id := request_id,
               error := some ("Audio file too large: " ++ toString sz ++ " bytes") } := by
      unfold validatePathInput
      rw [hsize]
      have : ¬ sz < 1000 := by omega
      simp [this, h]
    unfold processCommand
    simp [if_neg hne, hd, hv]
  · rw [String.append_assoc, String.append_assoc]
    exact string_append_left_ne "Audio file too small: " "Audio file too large: "
      (toString sz ++ " bytes") (by decide) (by decide)

/-- Witness for C7: a 10-byte file is rejected as too small with no backend
call. -/
theorem size_bounds_reject_witness :
    processCommand { sizedEnv with fileSize := fun _ => some 10 }
        { id := some "job-7", command := some "transcribe",
          path := some "/tmp/tiny.wav", audio_data_base64 := none } =
      ([{ id := "job-7", error := some ("Audio file too small: " ++ toString 10 ++ " bytes") }],
        []) :=
  (size_bounds_reject { sizedEnv with fileSize := fun _ => some 10 }
    "job-7" "/tmp/tiny.wav" 10 (by decide) rfl).1 (by decide)

/-- C8: when the structural probe fails in a way that is neither a clean
non-zero exit nor a timeout, the job still proceeds to the transcription
stage: the emitted response is exactly the transcription stage's response and
at least one backend call is issued. -/
theorem probe_failure_nonfatal (env : Env) (request_id p msg : String) (sz : ℕ)
    (hne : request_id ≠ "") (hsize : env.fileSize p = some sz)
    (hmin : ¬ sz < 1000) (hmax : ¬ sz > 100 * 1024 * 1024)
    (hprobe : env.ffprobe p = .invocationError msg) :
    processCommand env
        { id := some request_id, command := some "transcribe",
          path := some p, audio_data_base64 := none } =
      ([(runTranscription env request_id (.path p)).1],
        (runTranscription env request_id (.path p)).2) ∧
    (processCommand env
        { id := some request_id, command := some "transcribe",
          path := some p, audio_data_base64 := none }).2 ≠ [] := by
  have hd := dispatchCommand_path_job env request_id p sz
    { id := some request_id, command := some "transcribe",
      path := some p, audio_data_base64 := none } rfl rfl hsize
  have hv : validatePathInput env request_id p = none := by
    unfold validatePathInput
    rw [hsize]
    simp [hmin, hmax, hprobe]
  have hmain : processCommand env
      { id := some request_id, command := some "transcribe",
        path := some p, audio_data_base64 := none } =
      ([(runTranscription env request_id (.path p)).1],
        (runTranscription env request_id (.path p)).2) := by
    unfold processCommand
    simp [if_neg hne, hd, hv]
  refine ⟨hmain, ?_⟩
  rw [hmain]
  exact runTranscription_calls_ne_nil env request_id (.path p)

/-- Witness for C8: ffprobe missing, yet the job reaches the backend. -/
theorem probe_failure_nonfatal_witness :
    processCommand { sizedEnv with ffprobe := fun _ => .invocationError "tool missing" }
        { id := some "job-8", command := some "transcribe",
          path := some "/tmp/c.wav", audio_data_base64 := none } =
      ([(runTranscription { sizedEnv with ffprobe := fun _ => .invocationError "tool missing" }
          "job-8" (.path "/tmp/c.wav")).1],
        (runTranscription { sizedEnv with ffprobe := fun _ => .invocationError "tool missing" }
          "job-8" (.path "/tmp/c.wav")).2) :=
  (probe_failure_nonfatal { sizedEnv with ffprobe := fun _ => .invocationError "tool missing" }
    "job-8" "/tmp/c.wav" "tool missing" 2000 (by decide) rfl (by decide) (by decide) rfl).1

/-- C9: when a transcription job carries both a `path` and an
`audio_data_base64` field, the whole loop body behaves exactly as if the
inline payload were absent, and (when the file exists) the resolved input is
the path. -/
theorem path_precedence (env : Env) (command : Command) (p b64 : String)
    (hp : command.path = some p) (hb : command.audio_data_base64 = some b64) :
    processCommand env command =
      processCommand env { command with audio_data_base64 := none } ∧
    (∀ request_id sz, command.command = some "transcribe" →
      env.fileSize p = some sz →
      dispatchCommand env request_id command = .transcriptionInput (.path p)) := by
  obtain ⟨cid, cc, cp, cb⟩ := command
  simp only at hp hb
  subst hp hb
  constructor
  · rfl
  · intro request_id sz hcc hsz
    simp only at hcc
    subst hcc
    exact dispatchCommand_path_job env request_id p sz _ rfl rfl hsz

/-- Witness for C9 at a concrete job carrying both input fields. -/
theorem path_precedence_witness :
    processCommand sizedEnv
        { id := some "job-9", command := some "transcribe",
          path := some "/tmp/d.wav", audio_data_base64 := some "AAAA" } =
      processCommand sizedEnv
        { id := some "job-9", command := some "transcribe",
          path := some "/tmp/d.wav", audio_data_base64 := none } ∧
    dispatchCommand sizedEnv "job-9"
        { id := some "job-9", command := some "transcribe",
          path := some "/tmp/d.wav", audio_data_base64 := some "AAAA" } =
      .transcriptionInput (.path "/tmp/d.wav") := by
  have h := path_precedence sizedEnv
    { id := some "job-9", command := some "transcribe",
      path := some "/tmp/d.wav", audio_data_base64 := some "AAAA" }
    "/tmp/d.wav" "AAAA" rfl rfl
  exact ⟨h.1, h.2 "job-9" 2000 rfl rfl⟩

theorem dispatchCommand_toneResponse_shape (env : Env) (request_id : String)
    (command : Command) (r : Response)
    (h : dispatchCommand env request_id command = .toneResponse r) :
    r.transcription = none ∧ r.has_two_tone.isSome ∧ r.detected_tones.isSome := by
  unfold dispatchCommand at h
  split at h
  · split at h
    · split at h <;> simp_all
    · split at h
      · split at h
        · simp_all
        · split at h
          · simp_all
          · split at h <;> simp_all
      · simp_all
  · split at h
    · split at h
      · simp_all
      · split at h
        · split at h
          · simp_all
          · split at h
            · simp_all
            · cases h; exact ⟨rfl, rfl, rfl⟩
        · simp_all
    · simp_all

theorem validatePathInput_form (env : Env) (request_id p : String) (r : Response)
    (h : validatePathInput env request_id p = some r) :
    ∃ msg, r = { id := request_id, error := some msg } := by
  unfold validatePathInput at h
  split at h
  · cases h; exact ⟨_, rfl⟩
  · split at h
    · cases h; exact ⟨_, rfl⟩
    · split at h
      · cases h; exact ⟨_, rfl⟩
      · split at h
        · split at h
          · cases h; exact ⟨_, rfl⟩
          · simp_all
        · cases h; exact ⟨_, rfl⟩
        · simp_all

theorem runTranscription_shape (env : Env) (request_id : String)
    (audio_input : AudioInput) :
    (runTranscription env request_id audio_input).1.has_two_tone = none ∧
    (runTranscription env request_id audio_input).1.detected_tones = none ∧
    ¬((runTranscription env request_id audio_input).1.transcription.isSome ∧
      (runTranscription env request_id audio_input).1.error.isSome) ∧
    ((runTranscription env request_id audio_input).1.transcription = none →
      (runTranscription env request_id audio_input).1.error.isSome) := by
  unfold runTranscription
  dsimp only
  split
  · simp
  · split
    · split <;> simp
    · simp

theorem processCommand_cases (env : Env) (command : Command) (r : Response)
    (hr : r ∈ (processCommand env command).1) :
    (∃ i m, r = { id := i, error := some m }) ∨
    (∃ i, dispatchCommand env i command = .toneResponse r) ∨
    (∃ i audio_input, r = (runTranscription env i audio_input).1) := by
  rcases hcid : command.id with _ | request_id
  · simp [processCommand, hcid] at hr
  · by_cases hne : request_id = ""
    · simp [processCommand, hcid, hne] at hr
    · rcases hdc : dispatchCommand env request_id command with msg | r2 | ai
      · simp [processCommand, hcid, hne, hdc] at hr
        exact Or.inl ⟨request_id, msg, hr⟩
      · simp [processCommand, hcid, hne, hdc] at hr
        subst hr
        exact Or.inr (Or.inl ⟨request_id, hdc⟩)
      · cases ai with
        | path p =>
          cases hv : validatePathInput env request_id p with
          | none =>
            simp [processCommand, hcid, hne, hdc, hv] at hr
            exact Or.inr (Or.inr ⟨request_id, .path p, hr⟩)
          | some r2 =>
            simp [processCommand, hcid, hne, hdc, hv] at hr
            subst hr
            obtain ⟨msg, hform⟩ := validatePathInput_form env request_id p _ hv
            exact Or.inl ⟨request_id, msg, hform⟩
        | buffer samples =>
          simp [processCommand, hcid, hne, hdc] at hr
          exact Or.inr (Or.inr ⟨request_id, .buffer samples, hr⟩)

/-- C4 counterexample: a `detect_tones` job whose detector result carries an
`error` key yields a single response that carries the success fields
(`has_two_tone`, `detected_tones`) and the `error` field at the same time
(`transcribe.py` lines 283-291). -/
theorem tone_error_both_fields :
    ∃ r ∈ (processCommand toneErrEnv
        { id := some "42", command := some "detect_tones",
          path := some "/tmp/t.wav", audio_data_base64 := none }).1,
      (r.has_two_tone.isSome ∧ r.detected_tones.isSome) ∧ r.error.isSome := by
  decide

/-- C4 amended: transcription success fields never co-occur with `error` or
with the tone fields, the tone fields come in pairs, and every response with
no success field carries an error; but a tone-detection response may carry
`error` alongside `has_two_tone`/`detected_tones`. -/
theorem response_field_exclusivity (env : Env) (command : Command) :
    ∀ r ∈ (processCommand env command).1,
      ¬(r.transcription.isSome ∧ r.error.isSome) ∧
      ¬(r.transcription.isSome ∧ r.has_two_tone.isSome) ∧
      (r.has_two_tone.isSome → r.detected_tones.isSome) ∧
      (r.transcription = none → r.has_two_tone = none → r.error.isSome) := by
  intro r hr
  rcases processCommand_cases env command r hr with ⟨i, m, rfl⟩ | ⟨i, heq⟩ | ⟨i, ai, rfl⟩
  · exact ⟨by simp, by simp, by simp, fun _ _ => rfl⟩
  · obtain ⟨h1, h2, h3⟩ := dispatchCommand_toneResponse_shape env i command r heq
    refine ⟨by simp [h1], by simp [h1], fun _ => h3, fun _ hH => ?_⟩
    rw [hH] at h2
    simp at h2
  · obtain ⟨g1, g2, g3, g4⟩ := runTranscription_shape env i ai
    exact ⟨g3, by simp [g1], by simp [g1], fun hT _ => g4 hT⟩

/-- Witness for the amended C4 at a concrete command and environment. -/
theorem response_field_exclusivity_witness :
    ¬(invalidFormatResponse.transcription.isSome ∧
        invalidFormatResponse.error.isSome) ∧
    ¬(invalidFormatResponse.transcription.isSome ∧
        invalidFormatResponse.has_two_tone.isSome) ∧
    (invalidFormatResponse.has_two_tone.isSome →
      invalidFormatResponse.detected_tones.isSome) ∧
    (invalidFormatResponse.transcription = none →
      invalidFormatResponse.has_two_tone = none →
      invalidFormatResponse.error.isSome) :=
  response_field_exclusivity bareEnv noInputJob invalidFormatResponse (by decide)

/-- C5 counterexample: with the two-tone category empty and both the pulsed
and long-tone categories non-empty, the Python API fallback labels the result
`long` (it checks long before pulsed, `tone_detect.py` lines 346, 365),
whereas the claimed precedence (two-tone, then pulsed, then long-tone) would
label it `pulsed`; moreover the CLI JSON path joins simultaneous categories
into a combined label rather than letting the first one win. -/
theorem tone_precedence_counterexample :
    catNonempty (ApiResult.mk none (some ⟨[pulsedCall]⟩) (some ⟨[pulsedCall]⟩)).long_result = true ∧
    catNonempty (ApiResult.mk none (some ⟨[pulsedCall]⟩) (some ⟨[pulsedCall]⟩)).pulsed_result = true ∧
    (apiSelect (ApiResult.mk none (some ⟨[pulsedCall]⟩) (some ⟨[pulsedCall]⟩))).2.2 =
      some "long" ∧
    claimPrecedence false true true = some "pulsed" ∧
    (some "long" : Option String) ≠ some "pulsed" ∧
    cliJsonDetectedType true true false = some "two-tone+pulsed" ∧
    claimPrecedence true true false = some "two-tone" ∧
    (some "two-tone+pulsed" : Option String) ≠ some "two-tone" := by
  decide

/-- C5 amended: the CLI text-fallback path does use the claimed precedence
(two-tone, pulsed, long-tone); the Python API fallback uses two-tone, then
long-tone, then pulsed; the CLI JSON path agrees with the claimed precedence
when at most one category fires, and otherwise produces a combined label whose
leading component is the claimed-precedence winner. -/
theorem tone_precedence_amended :
    (∀ result : ApiResult,
      (apiSelect result).2.2 =
        apiOrderPrecedence (catNonempty result.two_tone_result)
          (catNonempty result.long_result) (catNonempty result.pulsed_result)) ∧
    (∀ a b c : Bool, cliTextDetectedType a b c = claimPrecedence a b c) ∧
    (∀ a b c : Bool, a.toNat + b.toNat + c.toNat ≤ 1 →
      cliJsonDetectedType a b c = claimPrecedence a b c) ∧
    (∀ a b c : Bool, optPrefix (claimPrecedence a b c) (cliJsonDetectedType a b c) = true) := by
  refine ⟨?_, by decide, by decide, by decide⟩
  intro result
  obtain ⟨tt, lg, pl⟩ := result
  cases tt <;> cases lg <;> cases pl <;>
    (simp only [apiSelect, apiOrderPrecedence, catNonempty]
     split_ifs <;> simp_all [List.isEmpty_iff])

/-- C6 counterexample: (a) when exactly 300 seconds have elapsed no heartbeat
is emitted (the code requires strictly more than 300); (b) processing a job
does not reset the idle timer: with jobs arriving at t = 200 and t = 400
(each gap well within the 300 s interval) a heartbeat is still emitted at
t = 400, 300+ seconds after startup, even though each job produced a
response. -/
theorem heartbeat_counterexample :
    (loopIteration bareEnv 300 { last_heartbeat := 0 } .emptyLine).2 = [] ∧
    Output.heartbeat 400 ∈
      runLoop bareEnv { last_heartbeat := 0 }
        [(200, .parsed (hbJob "a")), (400, .parsed (hbJob "b"))] ∧
    Output.response { id := "a", error := some "Audio file does not exist: /x.wav" } ∈
      runLoop bareEnv { last_heartbeat := 0 }
        [(200, .parsed (hbJob "a")), (400, .parsed (hbJob "b"))] ∧
    Output.response { id := "b", error := some "Audio file does not exist: /x.wav" } ∈
      runLoop bareEnv { last_heartbeat := 0 }
        [(200, .parsed (hbJob "a")), (400, .parsed (hbJob "b"))] := by
  decide

/-- C6 amended: a heartbeat is emitted at the top of an iteration exactly when
strictly more than 300 seconds have elapsed since the last heartbeat (or
startup), and emitting it resets the timer; handling a job never updates the
timer, so heartbeats keep firing on the 300-second cadence even while jobs
keep arriving. -/
theorem heartbeat_policy (env : Env) (t : ℕ) (st : LoopState) (line : LineInput) :
    (t - st.last_heartbeat > 300 →
      (loopIteration env t st line).2.head? = some (.heartbeat t) ∧
      (loopIteration env t st line).1.last_heartbeat = t) ∧
    (¬ t - st.last_heartbeat > 300 →
      (loopIteration env t st line).1 = st ∧
      ∀ ts, Output.heartbeat ts ∉ (loopIteration env t st line).2) := by
  constructor
  · intro h
    unfold loopIteration
    rw [if_pos h]
    exact ⟨rfl, rfl⟩
  · intro h
    unfold loopIteration
    rw [if_neg h]
    refine ⟨rfl, fun ts hmem => ?_⟩
    simp only [List.mem_map] at hmem
    obtain ⟨r, _, habs⟩ := hmem
    cases habs

/-- Witness for the amended C6: at t = 400 with the timer at 0, the heartbeat
leads the iteration's output and the timer is reset to 400. -/
theorem heartbeat_policy_witness :
    (loopIteration bareEnv 400 { last_heartbeat := 0 } .emptyLine).2.head? =
      some (.heartbeat 400) ∧
    (loopIteration bareEnv 400 { last_heartbeat := 0 } .emptyLine).1.last_heartbeat = 400 :=
  (heartbeat_policy bareEnv 400 { last_heartbeat := 0 } .emptyLine).1 (by decide)

/-- C10: `get_detected_tones` returns the empty list whenever the result's
`has_two_tone` flag is off or the stored calls lack the two-tone attributes
(as long-tone and pulsed calls do), and every returned entry is extracted
from a stored call carrying both `tone_a` and `tone_b` — so the
`detected_tones` list never contains long-tone or pulsed events. -/
theorem detected_tones_two_tone_only (detection_result : DetectionResult) :
    (detection_result.has_two_tone = false →
      get_detected_tones detection_result = []) ∧
    (∀ calls, detection_result.detection_result = some (.callsObj calls) →
      (∀ call ∈ calls, call.tone_a = none ∨ call.tone_b = none) →
      get_detected_tones detection_result = []) ∧
    (∀ e ∈ get_detected_tones detection_result,
      ∃ calls, detection_result.detection_result = some (.callsObj calls) ∧
        ∃ call ∈ calls, call.tone_a = some e.tone_a ∧ call.tone_b = some e.tone_b) := by
  refine ⟨?_, ?_, ?_⟩
  · intro h
    simp [get_detected_tones, h]
  · intro calls hdr hall
    unfold get_detected_tones
    rw [hdr]
    split
    · rfl
    · simp only
      apply List.filterMap_eq_nil_iff.mpr
      intro call hc
      rcases hall call hc with h | h
      · rw [h]
      · rw [h]
        cases call.tone_a <;> rfl
  · intro e he
    unfold get_detected_tones at he
    split at he
    · simp at he
    · split at he
      · simp at he
      · simp at he
      · rename_i calls heq
        rw [List.mem_filterMap] at he
        obtain ⟨call, hc, hf⟩ := he
        refine ⟨calls, heq, call, hc, ?_⟩
        cases hta : call.tone_a with
        | none => rw [hta] at hf; cases hf
        | some a =>
          cases htb : call.tone_b with
          | none => rw [hta, htb] at hf; cases hf
          | some b =>
            rw [hta, htb] at hf
            injection hf with hf
            subst hf
            exact ⟨rfl, rfl⟩

/-- Witness for C10 at a concrete detection result. -/
theorem detected_tones_two_tone_only_witness :
    get_detected_tones
      { has_two_tone := false, detection_result := none, detected_type := none,
        file_path := "/tmp/t.wav", error := none } = [] :=
  (detected_tones_two_tone_only
    { has_two_tone := false, detection_result := none, detected_type := none,
      file_path := "/tmp/t.wav", error := none }).1 rfl

/-- Witness for the amended C5: with only the two-tone category firing, the
CLI JSON path's label equals the claimed-precedence label. -/
theorem tone_precedence_amended_witness :
    cliJsonDetectedType true false false = claimPrecedence true false false :=
  tone_precedence_amended.2.2.1 true false false (by decide)

end ScannerMap
